import Mathlib

/-!
Verification of the serialization/encoding layer of the `lsp-types` crate
(`src/lib.rs`, `src/semantic_highlighting.rs`).

The crate's (de)serialization rules are embedded shallowly over a JSON value
type: every serde (de)serializer that a claim touches becomes a Lean function
`Json → Except String T` (decoding) or `T → Json` (encoding), translated
from the Rust source.  Machine integers (`u8`, `u16`, `u32`, `u64`, `i32`,
`i64`) are modelled as `Nat`/`Int` with the range checks that serde performs
when reading a JSON number into such a type.  serde's derived code
(`Serialize_repr`/`Deserialize_repr` for enum-as-integer types, plain
`Serialize`/`Deserialize` for structs, `#[serde(untagged)]` first-match
dispatch for unions) is spelled out function by function.
-/

namespace LspTypes

/-- A JSON value, as `serde_json::Value` presents it to the crate's custom
deserializers.  Numbers are modelled as integers (the claims under study only
involve integral JSON numbers); objects are ordered association lists. -/
inductive Json where
  | null : Json
  | bool (b : Bool) : Json
  | num (n : Int) : Json
  | str (s : String) : Json
  | arr (elems : List Json) : Json
  | obj (fields : List (String × Json)) : Json

/-- Decode errors are carried as plain message strings, standing for the
`serde::de::Error::custom` / `invalid_value` errors the Rust code produces. -/
abbrev DecodeError := String

/-- `<u8 as serde::Deserialize>::deserialize` on a JSON value: an integral
number in `0..=255` succeeds, a negative or too-large number and every
non-number are decode errors. -/
def u8Deserialize : Json → Except DecodeError Nat
  | .num (.ofNat n) =>
    if n < 256 then .ok n
    else .error ("invalid value: integer `" ++ toString n ++ "`, expected u8")
  | .num (.negSucc m) =>
    .error ("invalid value: integer `-" ++ toString (m + 1) ++ "`, expected u8")
  | _ => .error "invalid type: expected u8"

/-- `<u32 as serde::Deserialize>::deserialize` on a JSON value. -/
def u32Deserialize : Json → Except DecodeError Nat
  | .num (.ofNat n) =>
    if n < 4294967296 then .ok n
    else .error ("invalid value: integer `" ++ toString n ++ "`, expected u32")
  | .num (.negSucc m) =>
    .error ("invalid value: integer `-" ++ toString (m + 1) ++ "`, expected u32")
  | _ => .error "invalid type: expected u32"

/-- `<u64 as serde::Deserialize>::deserialize` on a JSON value. -/
def u64Deserialize : Json → Except DecodeError Nat
  | .num (.ofNat n) =>
    if n < 18446744073709551616 then .ok n
    else .error ("invalid value: integer `" ++ toString n ++ "`, expected u64")
  | .num (.negSucc m) =>
    .error ("invalid value: integer `-" ++ toString (m + 1) ++ "`, expected u64")
  | _ => .error "invalid type: expected u64"

/-- `Vec<T>` deserialization: each element in order with `f`, failing on the
first element error (serde's `SeqAccess` loop). -/
def mapDeserialize (f : Json → Except String α) : List Json → Except DecodeError (List α)
  | [] => .ok []
  | x :: xs =>
    match f x with
    | .error e => .error e
    | .ok a =>
      match mapDeserialize f xs with
      | .error e => .error e
      | .ok rest => .ok (a :: rest)

/-- Field lookup in a JSON object, as serde's derived struct deserializers
find a named field (unknown fields are ignored). -/
def getField (fields : List (String × Json)) (name : String) : Option Json :=
  match fields.find? (fun p => p.fst == name) with
  | some p => some p.snd
  | none => none

/-- An optional struct field under `#[serde(skip_serializing_if = "Option::is_none")]`:
absent values contribute no key at all to the serialized object. -/
def optField (name : String) : Option Json → List (String × Json)
  | none => []
  | some j => [(name, j)]

/-! ## Enum-as-integer codecs (`serde_repr` derives)

`DiagnosticSeverity`, `SymbolKind` and `CompletionItemTag` in `src/lib.rs`
derive `Serialize_repr`/`Deserialize_repr` with `#[repr(u8)]`: serialization
writes the declared discriminant as a JSON number, deserialization reads a
`u8` and matches it against the declared discriminants, erroring on any other
value (none of the three declares a `#[serde(other)]` catch-all arm, so the
generated match has no fallback). -/

/-- `DiagnosticSeverity` (src/lib.rs:208): Error = 1, Warning = 2,
Information = 3, Hint = 4. -/
inductive DiagnosticSeverity where
  | Error
  | Warning
  | Information
  | Hint
  deriving DecidableEq

/-- The declared `#[repr(u8)]` discriminant of a `DiagnosticSeverity`. -/
def DiagnosticSeverity.toU8 : DiagnosticSeverity → Nat
  | .Error => 1
  | .Warning => 2
  | .Information => 3
  | .Hint => 4

/-- `Serialize_repr` for `DiagnosticSeverity`: the discriminant as a JSON
number. -/
def DiagnosticSeverity.serialize (v : DiagnosticSeverity) : Json :=
  .num v.toU8

/-- The discriminant match generated by `Deserialize_repr` for
`DiagnosticSeverity`: no catch-all variant, unknown values error with the
offending value and the expected set. -/
def DiagnosticSeverity.fromU8 (n : Nat) : Except DecodeError DiagnosticSeverity :=
  if n = 1 then .ok .Error
  else if n = 2 then .ok .Warning
  else if n = 3 then .ok .Information
  else if n = 4 then .ok .Hint
  else .error ("invalid value: " ++ toString n ++ ", expected one of: 1, 2, 3, 4")

/-- `Deserialize_repr` for `DiagnosticSeverity`: read a `u8`, then match the
discriminant table. -/
def DiagnosticSeverity.deserialize (j : Json) : Except DecodeError DiagnosticSeverity :=
  match u8Deserialize j with
  | .error e => .error e
  | .ok n => DiagnosticSeverity.fromU8 n

/-- `SymbolKind` (src/lib.rs:2811): discriminants 1..=26 for the named kinds
plus `Unknown = 255` ("Capturing all unknown enums by this lib."). -/
inductive SymbolKind where
  | File
  | Module
  | Namespace
  | Package
  | Class
  | Method
  | Property
  | Field
  | Constructor
  | Enum
  | Interface
  | Function
  | Variable
  | Constant
  | String
  | Number
  | Boolean
  | Array
  | Object
  | Key
  | Null
  | EnumMember
  | Struct
  | Event
  | Operator
  | TypeParameter
  | Unknown
  deriving DecidableEq

/-- The declared `#[repr(u8)]` discriminant of a `SymbolKind`. -/
def SymbolKind.toU8 : SymbolKind → Nat
  | .File => 1
  | .Module => 2
  | .Namespace => 3
  | .Package => 4
  | .Class => 5
  | .Method => 6
  | .Property => 7
  | .Field => 8
  | .Constructor => 9
  | .Enum => 10
  | .Interface => 11
  | .Function => 12
  | .Variable => 13
  | .Constant => 14
  | .String => 15
  | .Number => 16
  | .Boolean => 17
  | .Array => 18
  | .Object => 19
  | .Key => 20
  | .Null => 21
  | .EnumMember => 22
  | .Struct => 23
  | .Event => 24
  | .Operator => 25
  | .TypeParameter => 26
  | .Unknown => 255

/-- `Serialize_repr` for `SymbolKind`. -/
def SymbolKind.serialize (v : SymbolKind) : Json :=
  .num v.toU8

/-- The discriminant match generated by `Deserialize_repr` for `SymbolKind`.
The enum declares `Unknown = 255` as an ordinary variant; the derive has no
`#[serde(other)]` arm, so a value outside the declared discriminants is an
error, exactly like any other `Deserialize_repr` enum. -/
def SymbolKind.fromU8 (n : Nat) : Except DecodeError SymbolKind :=
  if n = 1 then .ok .File
  else if n = 2 then .ok .Module
  else if n = 3 then .ok .Namespace
  else if n = 4 then .ok .Package
  else if n = 5 then .ok .Class
  else if n = 6 then .ok .Method
  else if n = 7 then .ok .Property
  else if n = 8 then .ok .Field
  else if n = 9 then .ok .Constructor
  else if n = 10 then .ok .Enum
  else if n = 11 then .ok .Interface
  else if n = 12 then .ok .Function
  else if n = 13 then .ok .Variable
  else if n = 14 then .ok .Constant
  else if n = 15 then .ok .String
  else if n = 16 then .ok .Number
  else if n = 17 then .ok .Boolean
  else if n = 18 then .ok .Array
  else if n = 19 then .ok .Object
  else if n = 20 then .ok .Key
  else if n = 21 then .ok .Null
  else if n = 22 then .ok .EnumMember
  else if n = 23 then .ok .Struct
  else if n = 24 then .ok .Event
  else if n = 25 then .ok .Operator
  else if n = 26 then .ok .TypeParameter
  else if n = 255 then .ok .Unknown
  else .error ("invalid value: " ++ toString n ++
    ", expected one of: 1, 2, 3, 4, 5, 6, 7, 8, 9, 10, 11, 12, 13, 14, 15, 16, 17, 18, 19, 20, 21, 22, 23, 24, 25, 26, 255")

/-- `Deserialize_repr` for `SymbolKind`. -/
def SymbolKind.deserialize (j : Json) : Except DecodeError SymbolKind :=
  match u8Deserialize j with
  | .error e => .error e
  | .ok n => SymbolKind.fromU8 n

/-- `CompletionItemTag` (src/lib.rs:1075): Deprecated = 1. -/
inductive CompletionItemTag where
  | Deprecated
  deriving DecidableEq

/-- `Serialize_repr` for `CompletionItemTag`. -/
def CompletionItemTag.serialize : CompletionItemTag → Json
  | .Deprecated => .num 1

/-- `Deserialize_repr` for `CompletionItemTag`. -/
def CompletionItemTag.deserialize (j : Json) : Except DecodeError CompletionItemTag :=
  match u8Deserialize j with
  | .error e => .error e
  | .ok n =>
    if n = 1 then .ok .Deprecated
    else .error ("invalid value: " ++ toString n ++ ", expected one of: 1")

/-! ## `TagSupport<T>` and its boolean/structured compatibility shim
(src/lib.rs:1187-1214) -/

/-- `TagSupport<T>` (src/lib.rs:1189): the structured
`{"valueSet": [...]}` form, `#[serde(rename_all = "camelCase")]`. -/
structure TagSupport (T : Type) where
  value_set : List T
  deriving DecidableEq

/-- The `Deserialize` derive for the struct `TagSupport<T>`: a JSON object
whose (camelCased) `valueSet` field is a sequence of `T`s; unknown fields are
ignored, a missing `valueSet` and every non-object input are errors. -/
def TagSupport.deserialize (elemDe : Json → Except DecodeError T) :
    Json → Except DecodeError (TagSupport T)
  | .obj fields =>
    match getField fields "valueSet" with
    | none => .error "missing field `valueSet`"
    | some (.arr elems) =>
      match mapDeserialize elemDe elems with
      | .error e => .error e
      | .ok vs => .ok ⟨vs⟩
    | some _ => .error "invalid type: expected a sequence"
  | _ => .error "invalid type: expected struct TagSupport"

/-- `TagSupport::deserialize_compat` (src/lib.rs:1197-1213): read the raw
value as `Option<serde_json::Value>` (JSON `null` reads as `None`), then
match: `false` → `None`, `true` → empty `TagSupport`, anything else is fed
to the struct's own `Deserialize`. -/
def TagSupport.deserialize_compat (elemDe : Json → Except DecodeError T)
    (j : Json) : Except DecodeError (Option (TagSupport T)) :=
  match j with
  | .null => .ok none
  | .bool false => .ok none
  | .bool true => .ok (some ⟨[]⟩)
  | other =>
    match TagSupport.deserialize elemDe other with
    | .error e => .error e
    | .ok ts => .ok (some ts)

/-- A `tag_support` field with
`#[serde(default, deserialize_with = "TagSupport::deserialize_compat")]`
(e.g. src/lib.rs:1057-1062): when the key is absent the `default` (`None`)
is used without invoking the shim; when present, the shim runs on the value. -/
def TagSupport.deserialize_compat_field (elemDe : Json → Except DecodeError T) :
    Option Json → Except DecodeError (Option (TagSupport T))
  | none => .ok none
  | some j => TagSupport.deserialize_compat elemDe j

/-- The `Serialize` derive for `TagSupport<T>`: always the structured object
form `{"valueSet": [...]}`. -/
def TagSupport.serialize (elemSer : T → Json) (ts : TagSupport T) : Json :=
  .obj [("valueSet", .arr (ts.value_set.map elemSer))]

/-! ## `NumberOrString` (src/lib.rs:50-55), `#[serde(untagged)]` -/

/-- `NumberOrString`: `Number(u64)` or `String(String)`, untagged. -/
inductive NumberOrString where
  | Number (n : Nat)
  | String (s : String)
  deriving DecidableEq

/-- Untagged `Serialize`: the active variant's own representation, no
wrapper tag. -/
def NumberOrString.serialize : NumberOrString → Json
  | .Number n => .num n
  | .String s => .str s

/-- Untagged `Deserialize`: try the variants in declared order against the
buffered value — `Number` (a `u64`) first, then `String`. -/
def NumberOrString.deserialize (j : Json) : Except DecodeError NumberOrString :=
  match u64Deserialize j with
  | .ok n => .ok (.Number n)
  | .error _ =>
    match j with
    | .str s => .ok (.String s)
    | _ => .error "data did not match any variant of untagged enum NumberOrString"

/-! ## `WatchKind` bitflags (src/lib.rs:2165-2195) -/

/-- The `bitflags!` set `WatchKind`: Create = 1, Change = 2, Delete = 4,
modelled as one boolean per named flag. -/
structure WatchKind where
  Create : Bool
  Change : Bool
  Delete : Bool
  deriving DecidableEq

/-- `WatchKind::bits`: the OR of the set flags' bit values. -/
def WatchKind.bits (w : WatchKind) : Nat :=
  (if w.Create then 1 else 0) ||| (if w.Change then 2 else 0) ||| (if w.Delete then 4 else 0)

/-- `bitflags`' `WatchKind::from_bits`: `None` whenever a bit outside
`Create | Change | Delete` is set (`i & !7 != 0` on the `u8` storage,
`!7u8 = 248`), otherwise the flag set those bits denote. -/
def WatchKind.from_bits (i : Nat) : Option WatchKind :=
  if i &&& 248 = 0 then some ⟨i.testBit 0, i.testBit 1, i.testBit 2⟩ else none

/-- The manual `serde::Deserialize` impl for `WatchKind`
(src/lib.rs:2176-2186): read a `u8`, then `from_bits`, turning `None` into
`invalid_value(Unsigned(i), &"Unknown flag")`. -/
def WatchKind.deserialize (j : Json) : Except DecodeError WatchKind :=
  match u8Deserialize j with
  | .error e => .error e
  | .ok i =>
    match WatchKind.from_bits i with
    | some w => .ok w
    | none => .error ("invalid value: integer `" ++ toString i ++ "`, expected Unknown flag")

/-- The manual `serde::Serialize` impl for `WatchKind` (src/lib.rs:2188-2195):
`serialize_u8(self.bits())`. -/
def WatchKind.serialize (w : WatchKind) : Json :=
  .num w.bits

/-! ## `SemanticToken` flat-array codec (src/lib.rs:3946-3980) and the
structs/union built on it (src/lib.rs:4033-4075) -/

/-- `SemanticToken` (src/lib.rs:3948): five `u32` fields. -/
structure SemanticToken where
  delta_line : Nat
  delta_start : Nat
  length : Nat
  token_type : Nat
  token_modifiers_bitset : Nat
  deriving DecidableEq

/-- The `chunks_exact(5)` mapping inside `SemanticToken::deserialize_tokens`:
each complete 5-element chunk becomes one token, field order
`delta_line, delta_start, length, token_type, token_modifiers_bitset`;
a trailing partial chunk is not consumed here (the caller checks the
remainder first). -/
def semanticTokenChunks : List Nat → List SemanticToken
  | a :: b :: c :: d :: e :: rest => ⟨a, b, c, d, e⟩ :: semanticTokenChunks rest
  | _ => []

/-- `SemanticToken::deserialize_tokens` (src/lib.rs:3958-3980): read a
`Vec<u32>`; when its length is not divisible by 5 the remainder of
`chunks_exact(5)` is non-empty and decoding fails; otherwise map each chunk
to a token. -/
def SemanticToken.deserialize_tokens (j : Json) : Except DecodeError (List SemanticToken) :=
  match j with
  | .arr elems =>
    match mapDeserialize u32Deserialize elems with
    | .error e => .error e
    | .ok data =>
      if data.length % 5 = 0 then .ok (semanticTokenChunks data)
      else .error "Length is not divisible by 5"
  | _ => .error "invalid type: expected a sequence"

/-- The flat integer list `SemanticToken::serialize_tokens` writes: the five
fields of each token in order. -/
def SemanticToken.flatten_data : List SemanticToken → List Nat
  | [] => []
  | t :: ts =>
    t.delta_line :: t.delta_start :: t.length :: t.token_type ::
      t.token_modifiers_bitset :: SemanticToken.flatten_data ts

/-- `SemanticToken::serialize_tokens` (src/lib.rs:3982-3996): one JSON array
of `5 * tokens.len()` integers. -/
def SemanticToken.serialize_tokens (toks : List SemanticToken) : Json :=
  .arr ((SemanticToken.flatten_data toks).map (fun n => Json.num n))

/-- `SemanticTokens` (src/lib.rs:4037): optional `resultId`
(skipped when `None`) and the flat-coded `data`. -/
structure SemanticTokens where
  result_id : Option String
  data : List SemanticToken
  deriving DecidableEq

/-- The `Serialize` derive for `SemanticTokens` (camelCase field names,
`data` through `SemanticToken::serialize_tokens`). -/
def SemanticTokens.serialize (st : SemanticTokens) : Json :=
  .obj (optField "resultId" (st.result_id.map Json.str) ++
    [("data", SemanticToken.serialize_tokens st.data)])

/-- `Option<String>` field deserialization: absent or `null` is `None`. -/
def optStringField : Option Json → Except DecodeError (Option String)
  | none => .ok none
  | some .null => .ok none
  | some (.str s) => .ok (some s)
  | some _ => .error "invalid type: expected a string"

/-- The `Deserialize` derive for `SemanticTokens`: `resultId` optional,
`data` required and decoded with `SemanticToken::deserialize_tokens`. -/
def SemanticTokens.deserialize (j : Json) : Except DecodeError SemanticTokens :=
  match j with
  | .obj fields =>
    match optStringField (getField fields "resultId") with
    | .error e => .error e
    | .ok rid =>
      match getField fields "data" with
      | none => .error "missing field `data`"
      | some v =>
        match SemanticToken.deserialize_tokens v with
        | .error e => .error e
        | .ok d => .ok ⟨rid, d⟩
  | _ => .error "invalid type: expected struct SemanticTokens"

/-- `SemanticTokensPartialResult` (src/lib.rs:4059): just the flat-coded
`data` field. -/
structure SemanticTokensPartialResult where
  data : List SemanticToken
  deriving DecidableEq

/-- The `Serialize` derive for `SemanticTokensPartialResult`. -/
def SemanticTokensPartialResult.serialize (p : SemanticTokensPartialResult) : Json :=
  .obj [("data", SemanticToken.serialize_tokens p.data)]

/-- The `Deserialize` derive for `SemanticTokensPartialResult`. -/
def SemanticTokensPartialResult.deserialize (j : Json) :
    Except DecodeError SemanticTokensPartialResult :=
  match j with
  | .obj fields =>
    match getField fields "data" with
    | none => .error "missing field `data`"
    | some v =>
      match SemanticToken.deserialize_tokens v with
      | .error e => .error e
      | .ok d => .ok ⟨d⟩
  | _ => .error "invalid type: expected struct SemanticTokensPartialResult"

/-- `SemanticTokensResult` (src/lib.rs:4069-4073): `#[serde(untagged)]`,
variants `Tokens(SemanticTokens)` then `Partial(SemanticTokensPartialResult)`
in that declared order. -/
inductive SemanticTokensResult where
  | Tokens (t : SemanticTokens)
  | Partial (p : SemanticTokensPartialResult)
  deriving DecidableEq

/-- Untagged `Serialize` for `SemanticTokensResult`: the active variant's own
representation. -/
def SemanticTokensResult.serialize : SemanticTokensResult → Json
  | .Tokens t => SemanticTokens.serialize t
  | .Partial p => SemanticTokensPartialResult.serialize p

/-- Untagged `Deserialize` for `SemanticTokensResult`: first variant whose
decode succeeds wins. -/
def SemanticTokensResult.deserialize (j : Json) : Except DecodeError SemanticTokensResult :=
  match SemanticTokens.deserialize j with
  | .ok t => .ok (.Tokens t)
  | .error _ =>
    match SemanticTokensPartialResult.deserialize j with
    | .ok p => .ok (.Partial p)
    | .error _ => .error "data did not match any variant of untagged enum SemanticTokensResult"

/-! ## Base64 (the `base64` crate with `base64::STANDARD`, as used by
`src/semantic_highlighting.rs`)

Standard alphabet, `=` padding on encode; decode accepts a canonical final
quantum (2 or 3 symbols, padded or not, with zero trailing bits) and rejects
`=` anywhere else and every character outside the alphabet. -/

/-- The standard-alphabet symbol for a 6-bit value. -/
def b64Char (n : Nat) : Char :=
  if n < 26 then Char.ofNat (65 + n)
  else if n < 52 then Char.ofNat (97 + (n - 26))
  else if n < 62 then Char.ofNat (48 + (n - 52))
  else if n = 62 then Char.ofNat 43
  else Char.ofNat 47

/-- The 6-bit value of a standard-alphabet symbol, `none` outside the
alphabet (also for `=`). -/
def b64Val (c : Char) : Option Nat :=
  let n := c.toNat
  if 65 ≤ n ∧ n ≤ 90 then some (n - 65)
  else if 97 ≤ n ∧ n ≤ 122 then some (n - 97 + 26)
  else if 48 ≤ n ∧ n ≤ 57 then some (n - 48 + 52)
  else if n = 43 then some 62
  else if n = 47 then some 63
  else none

/-- `base64::encode_config(_, STANDARD)` on a byte list: 3 bytes per quantum,
`=`-padded tail. -/
def base64EncodeBytes : List Nat → List Char
  | [] => []
  | [b0] => [b64Char (b0 / 4), b64Char (b0 % 4 * 16), '=', '=']
  | [b0, b1] => [b64Char (b0 / 4), b64Char (b0 % 4 * 16 + b1 / 16), b64Char (b1 % 16 * 4), '=']
  | b0 :: b1 :: b2 :: rest =>
    b64Char (b0 / 4) :: b64Char (b0 % 4 * 16 + b1 / 16) ::
      b64Char (b1 % 16 * 4 + b2 / 64) :: b64Char (b2 % 64) :: base64EncodeBytes rest

/-- `base64::encode_config(_, STANDARD)` as a string. -/
def base64Encode (bytes : List Nat) : String :=
  String.mk (base64EncodeBytes bytes)

/-- A final 2-symbol quantum: one byte, trailing bits must be zero. -/
def b64DecTail2 (c1 c2 : Char) : Option (List Nat) :=
  match b64Val c1, b64Val c2 with
  | some v1, some v2 => if v2 % 16 = 0 then some [v1 * 4 + v2 / 16] else none
  | _, _ => none

/-- A final 3-symbol quantum: two bytes, trailing bits must be zero. -/
def b64DecTail3 (c1 c2 c3 : Char) : Option (List Nat) :=
  match b64Val c1, b64Val c2, b64Val c3 with
  | some v1, some v2, some v3 =>
    if v3 % 4 = 0 then some [v1 * 4 + v2 / 16, v2 % 16 * 16 + v3 / 4] else none
  | _, _, _ => none

/-- `base64::decode_config(_, STANDARD)` on a character list. -/
def base64DecodeChars : List Char → Option (List Nat)
  | [] => some []
  | [c1, c2] => b64DecTail2 c1 c2
  | [c1, c2, '=', '='] => b64DecTail2 c1 c2
  | [c1, c2, c3] => b64DecTail3 c1 c2 c3
  | [c1, c2, c3, '='] => b64DecTail3 c1 c2 c3
  | c1 :: c2 :: c3 :: c4 :: rest =>
    match b64Val c1, b64Val c2, b64Val c3, b64Val c4 with
    | some v1, some v2, some v3, some v4 =>
      match base64DecodeChars rest with
      | some tail =>
        some ((v1 * 4 + v2 / 16) :: (v2 % 16 * 16 + v3 / 4) :: (v3 % 4 * 64 + v4) :: tail)
      | none => none
    | _, _, _, _ => none
  | _ => none

/-- `base64::decode_config(_, STANDARD)` on a string. -/
def base64Decode (s : String) : Option (List Nat) :=
  base64DecodeChars s.toList

/-! ## `SemanticHighlightingToken` base64 codec
(src/semantic_highlighting.rs:23-146) -/

/-- `SemanticHighlightingToken`: `character: u32`, `length: u16`,
`scope: u16`. -/
structure SemanticHighlightingToken where
  character : Nat
  length : Nat
  scope : Nat
  deriving DecidableEq

/-- `u32::from_be_bytes` on four bytes. -/
def u32FromBeBytes (b0 b1 b2 b3 : Nat) : Nat :=
  ((b0 * 256 + b1) * 256 + b2) * 256 + b3

/-- `u16::from_be_bytes` on two bytes. -/
def u16FromBeBytes (b0 b1 : Nat) : Nat :=
  b0 * 256 + b1

/-- `u32::to_be_bytes`. -/
def u32ToBeBytes (n : Nat) : List Nat :=
  [n / 16777216 % 256, n / 65536 % 256, n / 256 % 256, n % 256]

/-- `u16::to_be_bytes`. -/
def u16ToBeBytes (n : Nat) : List Nat :=
  [n / 256 % 256, n % 256]

/-- The `chunks_exact(8)` loop inside
`SemanticHighlightingToken::deserialize_tokens`: each complete 8-byte chunk
becomes one token (4-byte big-endian `character`, 2-byte `length`, 2-byte
`scope`); `chunks_exact` never yields the trailing partial chunk, so 1-7
leftover bytes are silently dropped. -/
def semanticHighlightingTokenChunks : List Nat → List SemanticHighlightingToken
  | b0 :: b1 :: b2 :: b3 :: b4 :: b5 :: b6 :: b7 :: rest =>
    ⟨u32FromBeBytes b0 b1 b2 b3, u16FromBeBytes b4 b5, u16FromBeBytes b6 b7⟩ ::
      semanticHighlightingTokenChunks rest
  | _ => []

/-- `SemanticHighlightingToken::deserialize_tokens`
(src/semantic_highlighting.rs:32-55): `Option<String>` first (`null` reads as
`None` → no tokens); a string is base64-decoded (failure becomes the custom
"Error parsing base64 string" error) and split into 8-byte chunks. -/
def SemanticHighlightingToken.deserialize_tokens (j : Json) :
    Except DecodeError (Option (List SemanticHighlightingToken)) :=
  match j with
  | .null => .ok none
  | .str s =>
    match base64Decode s with
    | none => .error "Error parsing base64 string"
    | some bytes => .ok (some (semanticHighlightingTokenChunks bytes))
  | _ => .error "invalid type: expected option of string"

/-- The byte stream `SemanticHighlightingToken::serialize_tokens` builds:
each token's three fields in big-endian order. -/
def semanticHighlightingTokenBytes : List SemanticHighlightingToken → List Nat
  | [] => []
  | t :: ts =>
    u32ToBeBytes t.character ++ u16ToBeBytes t.length ++ u16ToBeBytes t.scope ++
      semanticHighlightingTokenBytes ts

/-- `SemanticHighlightingToken::serialize_tokens`
(src/semantic_highlighting.rs:57-80): `Some` tokens become the base64 string
of their packed bytes; `None` serializes as none (the field is skipped
before this point when absent). -/
def SemanticHighlightingToken.serialize_tokens :
    Option (List SemanticHighlightingToken) → Json
  | some toks => .str (base64Encode (semanticHighlightingTokenBytes toks))
  | none => .null

/-- `SemanticHighlightingInformation` (src/semantic_highlighting.rs:83-98):
`line: i32` plus the optional base64-coded `tokens`. -/
structure SemanticHighlightingInformation where
  line : Int
  tokens : Option (List SemanticHighlightingToken)
  deriving DecidableEq

/-- The `Serialize` derive for `SemanticHighlightingInformation`: `line`
always, `tokens` via `SemanticHighlightingToken::serialize_tokens` and
skipped entirely when `None`. -/
def SemanticHighlightingInformation.serialize (info : SemanticHighlightingInformation) : Json :=
  .obj ([("line", Json.num info.line)] ++
    (match info.tokens with
     | none => []
     | some _ => [("tokens", SemanticHighlightingToken.serialize_tokens info.tokens)]))

/-! ## `WorkspaceEdit` and its `changes` map (src/lib.rs:416-587)

`Url` is the external `url::Url`; the crate serializes one through
`Url::as_str` / `Display`, so a value is modelled as the string it carries.
`HashMap<Url, Vec<TextEdit>>` is modelled as an association list (the source
map's iteration order is likewise unspecified). -/

/-- `url::Url`, carried as its serialized string form. -/
structure Url where
  inner : String
  deriving DecidableEq

/-- `Url::as_str`. -/
def Url.as_str (u : Url) : String := u.inner

/-- `Position` (src/lib.rs:69): zero-based `line`/`character`, both `u64`. -/
structure Position where
  line : Nat
  character : Nat
  deriving DecidableEq

/-- The `Serialize` derive for `Position`. -/
def Position.serialize (p : Position) : Json :=
  .obj [("line", Json.num p.line), ("character", Json.num p.character)]

/-- `Range` (src/lib.rs:84): `start` and (exclusive) `end` positions.  The
`end` field is spelled `end_` because `end` is a Lean keyword. -/
structure Range where
  start : Position
  end_ : Position
  deriving DecidableEq

/-- The `Serialize` derive for `Range` (the JSON key is `end`). -/
def Range.serialize (r : Range) : Json :=
  .obj [("start", r.start.serialize), ("end", r.end_.serialize)]

/-- `TextEdit` (src/lib.rs:277). -/
structure TextEdit where
  range : Range
  new_text : String
  deriving DecidableEq

/-- The `Serialize` derive for `TextEdit` (camelCase: `newText`). -/
def TextEdit.serialize (e : TextEdit) : Json :=
  .obj [("range", e.range.serialize), ("newText", .str e.new_text)]

/-- `VersionedTextDocumentIdentifier` (src/lib.rs:647): `uri` plus an
`Option<i64>` version that is always emitted (`null` when `None`). -/
structure VersionedTextDocumentIdentifier where
  uri : Url
  version : Option Int
  deriving DecidableEq

/-- The `Serialize` derive for `VersionedTextDocumentIdentifier`. -/
def VersionedTextDocumentIdentifier.serialize (v : VersionedTextDocumentIdentifier) : Json :=
  .obj [("uri", .str v.uri.inner),
    ("version", match v.version with | none => Json.null | some k => Json.num k)]

/-- `TextDocumentEdit` (src/lib.rs:299). -/
structure TextDocumentEdit where
  text_document : VersionedTextDocumentIdentifier
  edits : List TextEdit
  deriving DecidableEq

/-- The `Serialize` derive for `TextDocumentEdit` (camelCase keys). -/
def TextDocumentEdit.serialize (e : TextDocumentEdit) : Json :=
  .obj [("textDocument", e.text_document.serialize),
    ("edits", .arr (e.edits.map TextEdit.serialize))]

/-- `CreateFileOptions` (src/lib.rs:348): both fields optional, skipped when
absent. -/
structure CreateFileOptions where
  overwrite : Option Bool
  ignore_if_exists : Option Bool
  deriving DecidableEq

/-- The `Serialize` derive for `CreateFileOptions`. -/
def CreateFileOptions.serialize (o : CreateFileOptions) : List (String × Json) :=
  optField "overwrite" (o.overwrite.map Json.bool) ++
    optField "ignoreIfExists" (o.ignore_if_exists.map Json.bool)

/-- `CreateFile` (src/lib.rs:360). -/
structure CreateFile where
  uri : Url
  options : Option CreateFileOptions
  deriving DecidableEq

/-- `RenameFileOptions` (src/lib.rs:371). -/
structure RenameFileOptions where
  overwrite : Option Bool
  ignore_if_exists : Option Bool
  deriving DecidableEq

/-- The `Serialize` derive for `RenameFileOptions`. -/
def RenameFileOptions.serialize (o : RenameFileOptions) : List (String × Json) :=
  optField "overwrite" (o.overwrite.map Json.bool) ++
    optField "ignoreIfExists" (o.ignore_if_exists.map Json.bool)

/-- `RenameFile` (src/lib.rs:383). -/
structure RenameFile where
  old_uri : Url
  new_uri : Url
  options : Option RenameFileOptions
  deriving DecidableEq

/-- `DeleteFileOptions` (src/lib.rs:396). -/
structure DeleteFileOptions where
  recursive : Option Bool
  ignore_if_not_exists : Option Bool
  deriving DecidableEq

/-- The `Serialize` derive for `DeleteFileOptions`. -/
def DeleteFileOptions.serialize (o : DeleteFileOptions) : List (String × Json) :=
  optField "recursive" (o.recursive.map Json.bool) ++
    optField "ignoreIfNotExists" (o.ignore_if_not_exists.map Json.bool)

/-- `DeleteFile` (src/lib.rs:408). -/
structure DeleteFile where
  uri : Url
  options : Option DeleteFileOptions
  deriving DecidableEq

/-- `ResourceOp` (src/lib.rs:469): internally tagged with
`#[serde(tag = "kind", rename_all = "lowercase")]`. -/
inductive ResourceOp where
  | Create (f : CreateFile)
  | Rename (f : RenameFile)
  | Delete (f : DeleteFile)
  deriving DecidableEq

/-- The `Serialize` derive for `ResourceOp`: the `kind` tag first, then the
payload struct's fields. -/
def ResourceOp.serialize : ResourceOp → Json
  | .Create f =>
    .obj (("kind", Json.str "create") :: ("uri", Json.str f.uri.inner) ::
      optField "options" (f.options.map (fun o => Json.obj o.serialize)))
  | .Rename f =>
    .obj (("kind", Json.str "rename") :: ("oldUri", Json.str f.old_uri.inner) ::
      ("newUri", Json.str f.new_uri.inner) ::
      optField "options" (f.options.map (fun o => Json.obj o.serialize)))
  | .Delete f =>
    .obj (("kind", Json.str "delete") :: ("uri", Json.str f.uri.inner) ::
      optField "options" (f.options.map (fun o => Json.obj o.serialize)))

/-- `DocumentChangeOperation` (src/lib.rs:463): untagged. -/
inductive DocumentChangeOperation where
  | Op (op : ResourceOp)
  | Edit (edit : TextDocumentEdit)
  deriving DecidableEq

/-- Untagged `Serialize` for `DocumentChangeOperation`. -/
def DocumentChangeOperation.serialize : DocumentChangeOperation → Json
  | .Op op => op.serialize
  | .Edit e => e.serialize

/-- `DocumentChanges` (src/lib.rs:441): untagged,
`Edits(Vec<TextDocumentEdit>)` then `Operations(Vec<DocumentChangeOperation>)`. -/
inductive DocumentChanges where
  | Edits (edits : List TextDocumentEdit)
  | Operations (ops : List DocumentChangeOperation)
  deriving DecidableEq

/-- Untagged `Serialize` for `DocumentChanges`. -/
def DocumentChanges.serialize : DocumentChanges → Json
  | .Edits es => .arr (es.map TextDocumentEdit.serialize)
  | .Operations ops => .arr (ops.map DocumentChangeOperation.serialize)

/-- `url_map::serialize` on a present map (src/lib.rs:568-587): one object
entry per `(Url, Vec<TextEdit>)` pair, keyed by `Url::as_str`.  (The `None`
branch of `url_map::serialize` is unreachable at struct level because the
field also carries `skip_serializing_if = "Option::is_none"`.) -/
def urlMapSerialize (m : List (Url × List TextEdit)) : Json :=
  .obj (m.map (fun kv => (kv.fst.as_str, Json.arr (kv.snd.map TextEdit.serialize))))

/-- `WorkspaceEdit` (src/lib.rs:416-424): `changes` (through `url_map`,
skipped when `None`) and `documentChanges` (skipped when `None`). -/
structure WorkspaceEdit where
  changes : Option (List (Url × List TextEdit))
  document_changes : Option DocumentChanges
  deriving DecidableEq

/-- The `Serialize` derive for `WorkspaceEdit`: each absent optional field
contributes no key at all. -/
def WorkspaceEdit.serialize (w : WorkspaceEdit) : Json :=
  .obj ((match w.changes with
         | none => []
         | some m => [("changes", urlMapSerialize m)]) ++
        (match w.document_changes with
         | none => []
         | some dc => [("documentChanges", dc.serialize)]))

/-! ## Helper lemmas -/

deriving instance DecidableEq for Except

/-- Reading a `u8` from an in-range natural number succeeds with that value. -/
lemma u8Deserialize_num_of_lt (n : Nat) (h : n < 256) :
    u8Deserialize (Json.num n) = .ok n := by
  show u8Deserialize (Json.num (Int.ofNat n)) = .ok n
  simp [u8Deserialize, h]

/-- The `DiagnosticSeverity` discriminant match on a value outside `1..=4`. -/
lemma diagnosticSeverity_fromU8_not_known (n : Nat) (h : ¬(1 ≤ n ∧ n ≤ 4)) :
    DiagnosticSeverity.fromU8 n =
      .error ("invalid value: " ++ toString n ++ ", expected one of: 1, 2, 3, 4") := by
  have e1 : n ≠ 1 := by omega
  have e2 : n ≠ 2 := by omega
  have e3 : n ≠ 3 := by omega
  have e4 : n ≠ 4 := by omega
  simp [DiagnosticSeverity.fromU8, e1, e2, e3, e4]

/-- Reading a `u64` from an in-range natural number succeeds with that
value. -/
lemma u64Deserialize_num_of_lt (n : Nat) (h : n < 18446744073709551616) :
    u64Deserialize (Json.num n) = .ok n := by
  show u64Deserialize (Json.num (Int.ofNat n)) = .ok n
  simp [u64Deserialize, h]

/-- Reading a `u32` from an in-range natural number succeeds with that
value. -/
lemma u32Deserialize_num_of_lt (n : Nat) (h : n < 4294967296) :
    u32Deserialize (Json.num n) = .ok n := by
  show u32Deserialize (Json.num (Int.ofNat n)) = .ok n
  simp [u32Deserialize, h]

/-- One step of the `Vec<u32>` element loop on an in-range head. -/
lemma mapDeserialize_u32_cons (a : Nat) (l : List Json) (ha : a < 4294967296) :
    mapDeserialize u32Deserialize (Json.num a :: l) =
      (match mapDeserialize u32Deserialize l with
       | .error e => .error e
       | .ok rest => .ok (a :: rest)) := by
  rw [mapDeserialize]
  rw [u32Deserialize_num_of_lt a ha]
  cases mapDeserialize u32Deserialize l <;> rfl

/-- Element-wise `u32` decoding of an array of in-range numbers returns the
original list. -/
lemma mapDeserialize_u32_num (data : List Nat) (h : ∀ x ∈ data, x < 4294967296) :
    mapDeserialize u32Deserialize (data.map (fun n : Nat => Json.num n)) = .ok data := by
  induction data with
  | nil => rfl
  | cons a l ih =>
    rw [List.map_cons, mapDeserialize_u32_cons a _ (h a (List.mem_cons_self a l)),
      ih (fun x hx => h x (List.mem_cons_of_mem a hx))]

/-- `chunks_exact(5)` on a list of length `5 * n`: `n` tokens, and flattening
them in the serializer's field order restores the list. -/
lemma semanticTokenChunks_spec : ∀ (n : Nat) (data : List Nat), data.length = 5 * n →
    (semanticTokenChunks data).length = n ∧
      SemanticToken.flatten_data (semanticTokenChunks data) = data := by
  intro n
  induction n with
  | zero =>
    intro data h
    rcases data with _ | ⟨a, l⟩
    · exact ⟨rfl, rfl⟩
    · simp at h
  | succ k ih =>
    intro data h
    rcases data with _ | ⟨a, _ | ⟨b, _ | ⟨c, _ | ⟨d, _ | ⟨e, rest⟩⟩⟩⟩⟩
    · simp at h
    · simp at h; omega
    · simp at h; omega
    · simp at h; omega
    · simp at h; omega
    · simp only [List.length_cons] at h
      have hrest : rest.length = 5 * k := by omega
      obtain ⟨h1, h2⟩ := ih rest hrest
      exact ⟨by simp [semanticTokenChunks, h1],
        by simp [semanticTokenChunks, SemanticToken.flatten_data, h2]⟩

/-- `chunks_exact(8)` always yields exactly `⌊length / 8⌋` tokens: a trailing
partial chunk is dropped, whatever its size. -/
lemma semanticHighlightingTokenChunks_length (bytes : List Nat) :
    (semanticHighlightingTokenChunks bytes).length = bytes.length / 8 := by
  induction bytes using semanticHighlightingTokenChunks.induct with
  | case1 b0 b1 b2 b3 b4 b5 b6 b7 rest ih =>
    simp [semanticHighlightingTokenChunks, ih]
    omega
  | case2 t h =>
    rcases t with _ | ⟨b0, _ | ⟨b1, _ | ⟨b2, _ | ⟨b3, _ | ⟨b4, _ | ⟨b5, _ | ⟨b6, _ | ⟨b7, rest⟩⟩⟩⟩⟩⟩⟩⟩ <;>
      simp [semanticHighlightingTokenChunks]
    exact (h b0 b1 b2 b3 b4 b5 b6 b7 rest rfl).elim

/-! ## Claim theorems -/

/-- C1: against the claim (and the enum's own "Capturing all unknown enums"
comment), the `serde_repr`-derived deserializer REJECTS the unknown
discriminant 99 with an invalid-value error instead of producing
`SymbolKind::Unknown`; the known discriminants 1..=26 and 255 do map to
their named variants. -/
theorem symbolKind_decode_table :
    SymbolKind.deserialize (Json.num 99) =
      .error ("invalid value: 99, expected one of: 1, 2, 3, 4, 5, 6, 7, 8, 9, 10, 11, 12, 13, 14, 15, 16, 17, 18, 19, 20, 21, 22, 23, 24, 25, 26, 255") ∧
    (∀ k : SymbolKind, SymbolKind.deserialize (Json.num k.toU8) = .ok k) := by
  refine ⟨by decide, ?_⟩
  intro k; cases k <;> decide

/-- C2: serializing the two reference tokens `{character: 1, length: 2,
scope: 3}` and `{character: 0x00112222, length: 0x0FF0, scope: 0x0202}`
emits the `tokens` field as exactly the base64 string
"AAAAAQACAAMAESIiD/ACAg=="; deserializing that string reproduces exactly
those two tokens; and a `None` token list serializes with the `tokens` key
omitted entirely. -/
theorem semanticHighlighting_base64_vectors :
    (SemanticHighlightingInformation.serialize
        ⟨10, some [⟨1, 2, 3⟩, ⟨0x00112222, 0x0FF0, 0x0202⟩]⟩ =
      Json.obj [("line", Json.num 10), ("tokens", Json.str "AAAAAQACAAMAESIiD/ACAg==")]) ∧
    (SemanticHighlightingToken.deserialize_tokens (Json.str "AAAAAQACAAMAESIiD/ACAg==") =
      .ok (some [⟨1, 2, 3⟩, ⟨0x00112222, 0x0FF0, 0x0202⟩])) ∧
    (SemanticHighlightingInformation.serialize ⟨22, none⟩ = Json.obj [("line", Json.num 22)]) :=
  ⟨rfl, rfl, rfl⟩

/-- C3 (counterexample): the claim says every JSON type other than
boolean/object/absent is a decode error, but `deserialize_compat` maps JSON
`null` to `Ok(None)` (through `Option::<Value>::deserialize`), not to an
error. -/
theorem tagSupport_compat_null_not_error :
    TagSupport.deserialize_compat CompletionItemTag.deserialize Json.null = .ok none ∧
    ¬ ∃ e, TagSupport.deserialize_compat CompletionItemTag.deserialize Json.null = .error e := by
  refine ⟨rfl, ?_⟩
  rintro ⟨e, he⟩
  simp [TagSupport.deserialize_compat] at he

/-- C3 (amended): `TagSupport::deserialize_compat` maps JSON `false`, JSON
`null` and an absent field to `None`; JSON `true` to a present empty value
set; a JSON object to the structured `{"valueSet": [...]}` decode (so
`{"valueSet": [1]}` gives `[Deprecated]` for `CompletionItemTag`); and every
remaining JSON type — string, number, array — to a decode error. -/
theorem tagSupport_compat_policy :
    (TagSupport.deserialize_compat_field CompletionItemTag.deserialize none = .ok none) ∧
    (TagSupport.deserialize_compat CompletionItemTag.deserialize (Json.bool false) = .ok none) ∧
    (TagSupport.deserialize_compat CompletionItemTag.deserialize Json.null = .ok none) ∧
    (TagSupport.deserialize_compat CompletionItemTag.deserialize (Json.bool true) =
      .ok (some ⟨[]⟩)) ∧
    (TagSupport.deserialize_compat CompletionItemTag.deserialize
        (Json.obj [("valueSet", Json.arr [Json.num 1])]) = .ok (some ⟨[.Deprecated]⟩)) ∧
    (∀ s, ∃ e,
      TagSupport.deserialize_compat CompletionItemTag.deserialize (Json.str s) = .error e) ∧
    (∀ n : Int, ∃ e,
      TagSupport.deserialize_compat CompletionItemTag.deserialize (Json.num n) = .error e) ∧
    (∀ elems, ∃ e,
      TagSupport.deserialize_compat CompletionItemTag.deserialize (Json.arr elems) = .error e) := by
  refine ⟨rfl, rfl, rfl, rfl, rfl, ?_, ?_, ?_⟩
  · intro s; exact ⟨_, rfl⟩
  · intro n; exact ⟨_, rfl⟩
  · intro elems; exact ⟨_, rfl⟩

/-- C4: `SemanticToken::deserialize_tokens` fails with the "Length is not
divisible by 5" error on every integer array whose length is not a multiple
of 5, and on every array of length `5 * n` it yields exactly `n` tokens
whose five fields come from 5 consecutive integers in the declared order
(flattening the result in that order gives back the input). -/
theorem semanticToken_flat_array_codec :
    ∀ data : List Nat, (∀ x ∈ data, x < 4294967296) →
      (data.length % 5 ≠ 0 →
        SemanticToken.deserialize_tokens (Json.arr (data.map (fun n : Nat => Json.num n))) =
          .error "Length is not divisible by 5") ∧
      (∀ n, data.length = 5 * n →
        ∃ toks,
          SemanticToken.deserialize_tokens (Json.arr (data.map (fun n : Nat => Json.num n))) =
              .ok toks ∧
            toks.length = n ∧ SemanticToken.flatten_data toks = data) := by
  intro data h
  have hmap := mapDeserialize_u32_num data h
  constructor
  · intro hlen
    simp only [SemanticToken.deserialize_tokens, hmap, if_neg hlen]
  · intro n hlen
    obtain ⟨hl, hf⟩ := semanticTokenChunks_spec n data hlen
    have hmod : data.length % 5 = 0 := by omega
    refine ⟨semanticTokenChunks data, ?_, hl, hf⟩
    simp only [SemanticToken.deserialize_tokens, hmap, if_pos hmod]

/-- C4 (witness): `[1]` fails with the length error, `[2, 5, 3, 0, 3]`
decodes to exactly one token carrying those five values. -/
theorem semanticToken_flat_array_codec_witness :
    SemanticToken.deserialize_tokens (Json.arr ([1].map (fun n : Nat => Json.num n))) =
      .error "Length is not divisible by 5" ∧
    ∃ toks,
      SemanticToken.deserialize_tokens
          (Json.arr ([2, 5, 3, 0, 3].map (fun n : Nat => Json.num n))) = .ok toks ∧
        toks.length = 1 ∧ SemanticToken.flatten_data toks = [2, 5, 3, 0, 3] :=
  ⟨(semanticToken_flat_array_codec [1] (by decide)).1 (by decide),
    (semanticToken_flat_array_codec [2, 5, 3, 0, 3] (by decide)).2 1 (by decide)⟩

set_option maxRecDepth 100000 in
/-- C5: `WatchKind` serializes as the single integer OR of its flag bits
(Create = 1, Change = 2, Delete = 4) and deserializes exactly the `u8`
values whose bits lie inside those three: 3 decodes to Create|Change, that
set encodes back to 3, 8 fails with the invalid-value error citing the
unknown flag, every flag set round-trips, and a `u8` decodes successfully
iff its bits are a subset of 7. -/
theorem watchKind_bitflags_codec :
    (WatchKind.deserialize (Json.num 3) = .ok ⟨true, true, false⟩) ∧
    (WatchKind.serialize ⟨true, true, false⟩ = Json.num 3) ∧
    (WatchKind.deserialize (Json.num 8) =
      .error "invalid value: integer `8`, expected Unknown flag") ∧
    (∀ a b c : Bool, WatchKind.deserialize (WatchKind.serialize ⟨a, b, c⟩) = .ok ⟨a, b, c⟩) ∧
    (∀ i : Fin 256, (WatchKind.deserialize (Json.num i.val)).isOk ↔ i.val &&& 7 = i.val) := by
  exact ⟨by decide, rfl, by decide, by decide, by decide⟩

/-- C6: `DiagnosticSeverity` decodes 1, 2, 3, 4 to its four variants; every
other `u8` fails with an invalid-value error reporting the received value
and the expected set "1, 2, 3, 4"; and every other integer (negative or
past `u8`) also fails with a decode error. -/
theorem diagnosticSeverity_unknown_value_rejected :
    (DiagnosticSeverity.deserialize (Json.num 1) = .ok .Error) ∧
    (DiagnosticSeverity.deserialize (Json.num 2) = .ok .Warning) ∧
    (DiagnosticSeverity.deserialize (Json.num 3) = .ok .Information) ∧
    (DiagnosticSeverity.deserialize (Json.num 4) = .ok .Hint) ∧
    (∀ n : Nat, n < 256 → ¬(1 ≤ n ∧ n ≤ 4) →
      DiagnosticSeverity.deserialize (Json.num n) =
        .error ("invalid value: " ++ toString n ++ ", expected one of: 1, 2, 3, 4")) ∧
    (∀ n : Int, ¬(1 ≤ n ∧ n ≤ 4) →
      ∃ e, DiagnosticSeverity.deserialize (Json.num n) = .error e) := by
  refine ⟨by decide, by decide, by decide, by decide, ?_, ?_⟩
  · intro n hlt hn
    unfold DiagnosticSeverity.deserialize
    rw [u8Deserialize_num_of_lt n hlt]
    exact diagnosticSeverity_fromU8_not_known n hn
  · intro n hn
    cases n with
    | ofNat m =>
      rw [Int.ofNat_eq_coe] at hn
      by_cases h1 : m < 256
      · have hn' : ¬(1 ≤ m ∧ m ≤ 4) := by
          rintro ⟨a1, a2⟩
          exact hn ⟨by omega, by omega⟩
        refine ⟨"invalid value: " ++ toString m ++ ", expected one of: 1, 2, 3, 4", ?_⟩
        unfold DiagnosticSeverity.deserialize
        rw [show Json.num (Int.ofNat m) = Json.num (m : Nat) from rfl,
          u8Deserialize_num_of_lt m h1]
        exact diagnosticSeverity_fromU8_not_known m hn'
      · refine ⟨"invalid value: integer `" ++ toString m ++ "`, expected u8", ?_⟩
        unfold DiagnosticSeverity.deserialize
        have hu : u8Deserialize (Json.num (Int.ofNat m)) =
            .error ("invalid value: integer `" ++ toString m ++ "`, expected u8") := by
          simp [u8Deserialize, h1]
        rw [hu]
    | negSucc m =>
      refine ⟨"invalid value: integer `-" ++ toString (m + 1) ++ "`, expected u8", ?_⟩
      unfold DiagnosticSeverity.deserialize
      have hu : u8Deserialize (Json.num (Int.negSucc m)) =
          .error ("invalid value: integer `-" ++ toString (m + 1) ++ "`, expected u8") := rfl
      rw [hu]

/-- C6 (witness): value 5 fails with the "1, 2, 3, 4" message, value 300
fails with the `u8` range error. -/
theorem diagnosticSeverity_unknown_value_rejected_witness :
    DiagnosticSeverity.deserialize (Json.num 5) =
      .error "invalid value: 5, expected one of: 1, 2, 3, 4" ∧
    ∃ e, DiagnosticSeverity.deserialize (Json.num 300) = .error e :=
  ⟨diagnosticSeverity_unknown_value_rejected.2.2.2.2.1 5 (by decide) (by decide),
    diagnosticSeverity_unknown_value_rejected.2.2.2.2.2 300 (by decide)⟩

/-- C7 (counterexample): encode-then-decode is NOT the identity on every
untagged-union value: serializing `SemanticTokensResult::Partial` with an
empty token list gives `{"data": []}`, which the untagged deserializer
resolves to the FIRST declared variant, `Tokens { result_id: None,
data: [] }` — a different value. -/
theorem semanticTokensResult_untagged_not_roundtrip :
    SemanticTokensResult.deserialize
        (SemanticTokensResult.serialize (.Partial ⟨[]⟩)) = .ok (.Tokens ⟨none, []⟩) ∧
    SemanticTokensResult.Tokens ⟨none, []⟩ ≠ SemanticTokensResult.Partial ⟨[]⟩ := by
  refine ⟨by decide, ?_⟩
  intro h
  simp at h

/-- C7 (amended): decode-after-encode is the identity for every
enum-as-integer type (`DiagnosticSeverity`, `SymbolKind`,
`CompletionItemTag`) and for untagged unions whose variant shapes are
disjoint — `NumberOrString`, where `Number(123)` encodes as the JSON number
123 and `String("abcd")` as the JSON string "abcd" with no wrapper tag; but
for untagged unions with structurally overlapping variants
(`SemanticTokensResult`), decoding yields the first declared variant that
matches, so `Partial` values come back as `Tokens`. -/
theorem roundtrip_enum_and_untagged :
    (∀ v : DiagnosticSeverity,
      DiagnosticSeverity.deserialize (DiagnosticSeverity.serialize v) = .ok v) ∧
    (∀ v : SymbolKind, SymbolKind.deserialize (SymbolKind.serialize v) = .ok v) ∧
    (∀ v : CompletionItemTag,
      CompletionItemTag.deserialize (CompletionItemTag.serialize v) = .ok v) ∧
    (NumberOrString.serialize (.Number 123) = Json.num 123) ∧
    (NumberOrString.serialize (.String "abcd") = Json.str "abcd") ∧
    (∀ n : Nat, n < 18446744073709551616 →
      NumberOrString.deserialize (NumberOrString.serialize (.Number n)) = .ok (.Number n)) ∧
    (∀ s, NumberOrString.deserialize (NumberOrString.serialize (.String s)) = .ok (.String s)) ∧
    (SemanticTokensResult.deserialize (SemanticTokensResult.serialize (.Partial ⟨[]⟩)) =
      .ok (.Tokens ⟨none, []⟩)) := by
  refine ⟨?_, ?_, ?_, rfl, rfl, ?_, ?_, by decide⟩
  · intro v; cases v <;> decide
  · intro v; cases v <;> decide
  · intro v; cases v; decide
  · intro n h
    show NumberOrString.deserialize (Json.num n) = .ok (.Number n)
    unfold NumberOrString.deserialize
    rw [u64Deserialize_num_of_lt n h]
  · intro s; exact rfl

/-- C7 (witness): the `u64` arm applied at 123. -/
theorem roundtrip_enum_and_untagged_witness :
    NumberOrString.deserialize (NumberOrString.serialize (.Number 123)) = .ok (.Number 123) :=
  roundtrip_enum_and_untagged.2.2.2.2.2.1 123 (by decide)

/-- C8: a `WorkspaceEdit` with `changes = Some(empty map)` serializes to
`{"changes": {}}` while `changes = None` serializes to `{}` with the key
omitted entirely, and the two outputs are distinguishable. -/
theorem workspaceEdit_changes_empty_vs_absent :
    (WorkspaceEdit.serialize ⟨some [], none⟩ = Json.obj [("changes", Json.obj [])]) ∧
    (WorkspaceEdit.serialize ⟨none, none⟩ = Json.obj []) ∧
    (Json.obj [("changes", Json.obj [])] ≠ Json.obj []) := by
  refine ⟨rfl, rfl, ?_⟩
  intro h
  simp at h

/-- C9: on any string that base64-decodes, `deserialize_tokens` never fails:
it yields one token per complete 8-byte chunk and silently drops the 1-7
trailing bytes, so the result always has exactly `⌊n / 8⌋` tokens for a
decoded byte length `n`. -/
theorem semanticHighlighting_tokens_truncated :
    ∀ (s : String) (bytes : List Nat), base64Decode s = some bytes →
      ∃ toks,
        SemanticHighlightingToken.deserialize_tokens (Json.str s) = .ok (some toks) ∧
          toks.length = bytes.length / 8 := by
  intro s bytes h
  refine ⟨semanticHighlightingTokenChunks bytes, ?_,
    semanticHighlightingTokenChunks_length bytes⟩
  simp only [SemanticHighlightingToken.deserialize_tokens, h]

/-- C9 (witness): "AAAAAAAAAAAA" decodes to 9 zero bytes, and decoding the
tokens field succeeds with `9 / 8 = 1` token. -/
theorem semanticHighlighting_tokens_truncated_witness :
    ∃ toks,
      SemanticHighlightingToken.deserialize_tokens (Json.str "AAAAAAAAAAAA") =
          .ok (some toks) ∧
        toks.length = [0, 0, 0, 0, 0, 0, 0, 0, 0].length / 8 :=
  semanticHighlighting_tokens_truncated "AAAAAAAAAAAA" [0, 0, 0, 0, 0, 0, 0, 0, 0] (by decide)

/-- C10: `TagSupport` always serializes in the structured object form: the
value decoded from JSON `true` re-serializes as `{"valueSet": []}`, and no
`TagSupport` value ever serializes to a JSON boolean, so the boolean wire
form is accepted on input but never produced on output. -/
theorem tagSupport_serializes_structured_only :
    (TagSupport.deserialize_compat CompletionItemTag.deserialize (Json.bool true) =
      .ok (some ⟨[]⟩)) ∧
    (TagSupport.serialize CompletionItemTag.serialize ⟨[]⟩ =
      Json.obj [("valueSet", Json.arr [])]) ∧
    (∀ ts : TagSupport CompletionItemTag, ∀ b : Bool,
      TagSupport.serialize CompletionItemTag.serialize ts ≠ Json.bool b) := by
  refine ⟨rfl, rfl, ?_⟩
  intro ts b h
  simp [TagSupport.serialize] at h

end LspTypes
